import Mathlib

/-!
Verification of the request-dispatch, validation, and query-construction
pipeline of the books serverless API (`src/index.js`).

The JavaScript source is shallowly embedded: JS values occurring in the
pipeline are modelled by the inductive `Value`; machine numbers that the
pipeline uses (ids, page, limit, year, content-length) are modelled by `Int`;
fallible code returns `Except JsError`; the stateful store (D1/SQLite) is
modelled as a list of rows threaded explicitly through the dispatcher, which
additionally records the externally visible effects it performs.
-/

/-- Subset of JavaScript values flowing through the pipeline: `null`,
`undefined`, strings, numbers (the pipeline only meets integral ones), and
booleans. -/
inductive Value where
  | vNull : Value
  | vUndefined : Value
  | vStr : String → Value
  | vNum : Int → Value
  | vBool : Bool → Value
deriving DecidableEq, Repr

/-- JavaScript truthiness for the values of `Value`: `null`, `undefined`,
`""`, `0` and `false` are falsy, everything else truthy. -/
def truthy : Value → Bool
  | .vNull => false
  | .vUndefined => false
  | .vStr s => s ≠ ""
  | .vNum n => n ≠ 0
  | .vBool b => b

/-- Model of JavaScript `String.prototype.trim`: strip leading and trailing
whitespace characters (the strings in this pipeline only carry ASCII
whitespace). -/
def jsTrim (s : String) : String :=
  ⟨((s.data.dropWhile Char.isWhitespace).reverse.dropWhile Char.isWhitespace).reverse⟩

/-- Hexadecimal digit test for the `0x` branch of `parseInt`. -/
def isHexDigitCh (c : Char) : Bool :=
  c.isDigit || ('a' ≤ c && c ≤ 'f') || ('A' ≤ c && c ≤ 'F')

/-- Numeric value of a hexadecimal digit. -/
def hexVal (c : Char) : Nat :=
  if c.isDigit then c.toNat - '0'.toNat
  else if 'a' ≤ c && c ≤ 'f' then c.toNat - 'a'.toNat + 10
  else c.toNat - 'A'.toNat + 10

/-- Fold a list of digit characters into a natural number in the given base. -/
def digitsToNat (base : Nat) (val : Char → Nat) (l : List Char) : Nat :=
  l.foldl (fun a c => a * base + val c) 0

/-- Model of JavaScript `parseInt(s)` (radix argument omitted): skip leading
whitespace, read an optional sign, auto-detect a `0x`/`0X` hexadecimal
literal, then take the longest prefix of valid digits, ignoring any trailing
garbage. `none` models `NaN`. -/
def jsParseInt (s : String) : Option Int :=
  let l := s.data.dropWhile Char.isWhitespace
  let (sign, l') : Int × List Char :=
    match l with
    | '-' :: r => (-1, r)
    | '+' :: r => (1, r)
    | _ => (1, l)
  match l' with
  | '0' :: c :: r =>
    if c = 'x' ∨ c = 'X' then
      let ds := r.takeWhile isHexDigitCh
      if ds.isEmpty then none
      else some (sign * (digitsToNat 16 hexVal ds : Nat))
    else
      let ds := l'.takeWhile Char.isDigit
      some (sign * (digitsToNat 10 (fun d => d.toNat - '0'.toNat) ds : Nat))
  | _ =>
    let ds := l'.takeWhile Char.isDigit
    if ds.isEmpty then none
    else some (sign * (digitsToNat 10 (fun d => d.toNat - '0'.toNat) ds : Nat))

/-- List-level substring containment, used to model
`String.prototype.includes`. -/
def containsSub : List Char → List Char → Bool
  | _, [] => true
  | [], _ :: _ => false
  | c :: rest, needle =>
    if needle.isPrefixOf (c :: rest) then true else containsSub rest needle

/-- Model of JavaScript `hay.includes(needle)`. -/
def jsIncludes (hay needle : String) : Bool :=
  containsSub hay.data needle.data

/-- Replace the first occurrence of `pat` in a character list
(JavaScript `String.prototype.replace` with a string pattern replaces only
the first occurrence). -/
def listReplaceFirst (pat rep : List Char) : List Char → List Char
  | [] => []
  | c :: rest =>
    if pat.isPrefixOf (c :: rest) then rep ++ (c :: rest).drop pat.length
    else c :: listReplaceFirst pat rep rest

/-- Model of JavaScript `s.replace(pat, rep)` with a string `pat`: only the
first occurrence is replaced (for a nonempty `pat` occurring in `s`). -/
def replaceFirst (s pat rep : String) : String :=
  ⟨listReplaceFirst pat.data rep.data s.data⟩

/-- Model of `Math.ceil(c / l)` for nonnegative integers `c` and positive
`l`, as used for the `pages` pagination field. -/
def jsCeilDiv (c l : Nat) : Nat := (c + l - 1) / l

/-- Model of `safeParseInt(value, defaultValue)` from the source
(`src/index.js`): `parseInt` the value, and keep it only when it is a
positive number, otherwise return the default. The first argument models the
`string | null` coming out of `params.get(...)`/route groups (`parseInt`
of `null` is `NaN`). This is the instance whose default is a number. -/
def safeParseIntD (value : Option String) (defaultValue : Int) : Int :=
  match value with
  | none => defaultValue
  | some s =>
    match jsParseInt s with
    | some n => if n > 0 then n else defaultValue
    | none => defaultValue

/-- The `safeParseInt` instance used with default `null` (for the `year`
query parameter): `none` models `null`. -/
def safeParseIntN (value : Option String) : Option Int :=
  match value with
  | none => none
  | some s =>
    match jsParseInt s with
    | some n => if n > 0 then some n else none
    | none => none


deriving instance DecidableEq for Except

/-- The closed error taxonomy of the source: the three error classes
(`ValidationError`, `NotFoundError`, `RateLimitError`) plus a generic
`Error`, each carrying its `message`. -/
inductive JsError where
  | validation : String → JsError
  | notFound : String → JsError
  | rateLimit : String → JsError
  | generic : String → JsError
deriving DecidableEq, Repr

/-- The `catch` block of `fetch` (`src/index.js` lines 475-506): maps a
caught error (its kind, message and stack trace) to the response status and
the sanitized message placed in the response body. The stack is logged by
the source but never used for the response. -/
def handleError (e : JsError) (_stack : String) : Nat × String :=
  match e with
  | .validation m => (400, m)
  | .notFound m => (404, m)
  | .rateLimit m => (429, m)
  | .generic m =>
    if jsIncludes m "timeout" then (504, "Request timeout")
    else if jsIncludes m "JSON" then (400, "Invalid JSON in request body")
    else (500, "An unexpected error occurred")

/-- The error raised by `executeQuery` when a store operation exceeds its
5-second timeout: `new Error('Database query timeout')`. -/
def dbTimeoutError : JsError := .generic "Database query timeout"

/-- The error raised when `request.json()` fails to parse the body; the
runtime message always contains the token `JSON`. -/
def jsonParseError : JsError := .generic "Unexpected end of JSON input"

/-- A candidate book object as seen by the pipeline: the six known fields,
each a JS value (`vUndefined` models an absent key). -/
structure BookObj where
  title : Value := .vUndefined
  author : Value := .vUndefined
  year : Value := .vUndefined
  isbn : Value := .vUndefined
  genre : Value := .vUndefined
  description : Value := .vUndefined
deriving DecidableEq, Repr

/-- Dynamic field access `book[field]` for the field names the source
iterates over. -/
def bookField (b : BookObj) (f : String) : Value :=
  if f = "title" then b.title
  else if f = "author" then b.author
  else if f = "year" then b.year
  else if f = "isbn" then b.isbn
  else if f = "genre" then b.genre
  else if f = "description" then b.description
  else .vUndefined

/-- The anchored regex `^(?:\d{10}|\d{13}|[\d-]{13,17})$` used for the ISBN
format check. -/
def isbnRegexMatch (s : String) : Bool :=
  let l := s.data
  (l.length == 10 && l.all Char.isDigit)
    || (l.length == 13 && l.all Char.isDigit)
    || (decide (13 ≤ l.length) && decide (l.length ≤ 17)
        && l.all (fun c => c.isDigit || c == '-'))

/-- `parseInt(book.year)`: `parseInt` applied to a JS value; a number is
stringified and reparsed (integral numbers round-trip), non-numeric
non-string values give `NaN`. -/
def jsParseIntV : Value → Option Int
  | .vStr s => jsParseInt s
  | .vNum n => some n
  | _ => none

/-- Required-fields computation of `validateBook`:
`['title','author'].filter((field) => !book[field])`. -/
def requiredMissing (book : BookObj) : List String :=
  ["title", "author"].filter (fun f => !truthy (bookField book f))

/-- Title section of `validateBook`: skipped when `undefined`; a non-string
or blank-after-trim value, then an over-long value, each raise
`ValidationError`. -/
def checkTitle (v : Value) : Except JsError Unit :=
  match v with
  | .vUndefined => .ok ()
  | .vStr s =>
    if (jsTrim s).length = 0 then .error (.validation "Title must be a non-empty string")
    else if s.length > 500 then .error (.validation "Title must be 500 characters or less")
    else .ok ()
  | _ => .error (.validation "Title must be a non-empty string")

/-- Author section of `validateBook` (same shape as the title section, limit
200). -/
def checkAuthor (v : Value) : Except JsError Unit :=
  match v with
  | .vUndefined => .ok ()
  | .vStr s =>
    if (jsTrim s).length = 0 then .error (.validation "Author must be a non-empty string")
    else if s.length > 200 then .error (.validation "Author must be 200 characters or less")
    else .ok ()
  | _ => .error (.validation "Author must be a non-empty string")

/-- Year section of `validateBook`: run only when the value is not `null`,
`undefined` or `''`; `parseInt` result must be a number in
`[0, currentYear+10]`. -/
def checkYear (v : Value) (currentYear : Int) : Except JsError Unit :=
  if v = .vNull ∨ v = .vUndefined ∨ v = .vStr "" then .ok ()
  else
    match jsParseIntV v with
    | some n =>
      if n < 0 ∨ n > currentYear + 10 then
        .error (.validation ("Year must be a valid number between 0 and " ++ toString (currentYear + 10)))
      else .ok ()
    | none =>
      .error (.validation ("Year must be a valid number between 0 and " ++ toString (currentYear + 10)))

/-- ISBN section of `validateBook`: run only when the value is truthy
(`book.isbn && book.isbn !== ''`); a non-string raises, then the regex is
tested. -/
def checkIsbn (v : Value) : Except JsError Unit :=
  if truthy v then
    match v with
    | .vStr s =>
      if isbnRegexMatch s then .ok () else .error (.validation "Invalid ISBN format")
    | _ => .error (.validation "ISBN must be a string")
  else .ok ()

/-- Description section of `validateBook`: run when not `null`/`undefined`/`''`;
must be a string of at most 5000 characters. -/
def checkDescription (v : Value) : Except JsError Unit :=
  if v = .vNull ∨ v = .vUndefined ∨ v = .vStr "" then .ok ()
  else
    match v with
    | .vStr s =>
      if s.length > 5000 then .error (.validation "Description must be 5000 characters or less")
      else .ok ()
    | _ => .error (.validation "Description must be a string")

/-- Genre section of `validateBook`: run when not `null`/`undefined`/`''`;
must be a string of at most 100 characters. -/
def checkGenre (v : Value) : Except JsError Unit :=
  if v = .vNull ∨ v = .vUndefined ∨ v = .vStr "" then .ok ()
  else
    match v with
    | .vStr s =>
      if s.length > 100 then .error (.validation "Genre must be 100 characters or less")
      else .ok ()
    | _ => .error (.validation "Genre must be a string")

/-- `validateBook(book, isUpdate)` from the source, with the ambient
`new Date().getFullYear()` made an explicit `currentYear` parameter: the
required-fields check (create mode only), then the per-field sections in
source order — title, author, year, isbn, description, genre. The first
violation raises. -/
def validateBook (book : BookObj) (isUpdate : Bool) (currentYear : Int) : Except JsError Unit :=
  if !isUpdate && !(requiredMissing book).isEmpty then
    .error (.validation ("Missing required fields: " ++ String.intercalate ", " (requiredMissing book)))
  else
    (checkTitle book.title).bind fun _ =>
    (checkAuthor book.author).bind fun _ =>
    (checkYear book.year currentYear).bind fun _ =>
    (checkIsbn book.isbn).bind fun _ =>
    (checkDescription book.description).bind fun _ =>
    checkGenre book.genre


/-- `.trim()` as applied by the query builders: the source only reaches
`.trim()` on values that validation has already proved to be strings; on any
other value the call would throw in JS, a case that is unreachable in the
builders, so the model returns the value unchanged there. -/
def jsTrimV : Value → Value
  | .vStr s => .vStr (jsTrim s)
  | v => v

/-- Statement text of the POST `INSERT` (whitespace normalized from the
template literal in the source). -/
def insertQuery : String :=
  "INSERT INTO books (title, author, year, isbn, genre, description) VALUES (?, ?, ?, ?, ?, ?)"

/-- The bound values of the POST `INSERT`, in the order the source binds
them: `book.title.trim(), book.author.trim(), book.year || null,
book.isbn || null, book.genre ? book.genre.trim() : null,
book.description ? book.description.trim() : null`. -/
def insertBindings (book : BookObj) : List Value :=
  [ jsTrimV book.title,
    jsTrimV book.author,
    if truthy book.year then book.year else .vNull,
    if truthy book.isbn then book.isbn else .vNull,
    if truthy book.genre then jsTrimV book.genre else .vNull,
    if truthy book.description then jsTrimV book.description else .vNull ]

/-- Modelled from the words of claim C3, for comparison with the source's
`insertBindings`: an optional field is bound as null exactly when it is not
provided or is empty after trim, otherwise with its provided value, string
fields being trimmed before binding. -/
def specC3OptionalBinding : Value → Value
  | .vUndefined => .vNull
  | .vNull => .vNull
  | .vStr s => if jsTrim s = "" then .vNull else .vStr (jsTrim s)
  | v => v

/-- Modelled from the words of claim C3: the full bound-value list the claim
prescribes for the `INSERT`. -/
def specC3InsertBindings (book : BookObj) : List Value :=
  [ jsTrimV book.title,
    jsTrimV book.author,
    specC3OptionalBinding book.year,
    specC3OptionalBinding book.isbn,
    specC3OptionalBinding book.genre,
    specC3OptionalBinding book.description ]

/-- `ALLOWED_UPDATE_FIELDS` from the source. -/
def ALLOWED_UPDATE_FIELDS : List String :=
  ["title", "author", "year", "isbn", "genre", "description"]

/-- JS object property access `obj[key]` for the request-body objects,
modelled as association lists in key-insertion order (`JSON.parse` keeps the
last duplicate, so the keys are distinct). -/
def jsObjGet (obj : List (String × Value)) (k : String) : Value :=
  match obj.find? (fun p => p.1 = k) with
  | some p => p.2
  | none => .vUndefined

/-- Does the object have the key as an own property (drives the `{...book,
...updates}` spread)? -/
def jsObjHas (obj : List (String × Value)) (k : String) : Bool :=
  (obj.find? (fun p => p.1 = k)).isSome

/-- `Object.keys(updates).filter((key) => ALLOWED_UPDATE_FIELDS.includes(key))`
from the PUT branch. -/
def updateFieldsOf (updates : List (String × Value)) : List String :=
  (updates.map Prod.fst).filter (fun k => ALLOWED_UPDATE_FIELDS.contains k)

/-- `updateFields.map((key) => key + ' = ?').join(', ')` from the PUT
branch. -/
def setClauseOf (fields : List String) : String :=
  String.intercalate ", " (fields.map (fun k => k ++ " = ?"))

/-- The per-value mapping of the PUT branch (`src/index.js` lines 381-392):
trim a string that is non-blank after trimming; convert the exact empty
string to null; pass everything else through unchanged. -/
def mapUpdateValue (value : Value) : Value :=
  match value with
  | .vStr s =>
    if (jsTrim s).length > 0 then .vStr (jsTrim s)
    else if s = "" then .vNull
    else .vStr s
  | v => v

/-- The full bound-value list of the PUT `UPDATE`: the mapped value of each
update field in SET-clause order, then the row id as the final parameter for
the WHERE clause. -/
def updateValues (fields : List String) (updates : List (String × Value)) (id : Int) : List Value :=
  (fields.map (fun k => mapUpdateValue (jsObjGet updates k))) ++ [.vNum id]

/-- The JS spread `{ ...book, ...updates }` restricted to the six fields
`validateBook` reads: every key present in `updates` overrides the stored
field. -/
def mergeBook (book : BookObj) (updates : List (String × Value)) : BookObj where
  title := if jsObjHas updates "title" then jsObjGet updates "title" else book.title
  author := if jsObjHas updates "author" then jsObjGet updates "author" else book.author
  year := if jsObjHas updates "year" then jsObjGet updates "year" else book.year
  isbn := if jsObjHas updates "isbn" then jsObjGet updates "isbn" else book.isbn
  genre := if jsObjHas updates "genre" then jsObjGet updates "genre" else book.genre
  description :=
    if jsObjHas updates "description" then jsObjGet updates "description" else book.description

/-- The PUT branch from the point the body is parsed (`src/index.js` lines
366-398): filter the payload keys through the allow-list, fail when nothing
remains, validate the merged object, then produce the SET clause and the
bound values (row id last). -/
def putCore (book : BookObj) (updates : List (String × Value)) (id : Int)
    (currentYear : Int) : Except JsError (String × List Value) :=
  let fields := updateFieldsOf updates
  if fields.isEmpty then .error (.validation "No valid fields to update")
  else
    (validateBook (mergeBook book updates) true currentYear).bind fun _ =>
    .ok (setClauseOf fields, updateValues fields updates id)

/-- Outcome of one call to the rate limiter collaborator: it reports a
success flag, or it fails with an infrastructure error. -/
inductive LimiterOutcome where
  | success : Bool → LimiterOutcome
  | failure : String → LimiterOutcome
deriving DecidableEq, Repr

/-- `checkRateLimit(env, request)` from the source; `none` models an
environment without a `MY_RATE_LIMITER` binding. Returns the gate outcome
together with whether a rate-limiter infrastructure error was logged (the
`console.error` in the catch). -/
def checkRateLimit (limiter : Option LimiterOutcome) : Except JsError Unit × Bool :=
  match limiter with
  | none => (.ok (), false)
  | some (.success true) => (.ok (), false)
  | some (.success false) =>
    (.error (.rateLimit "Rate limit exceeded. Please try again later."), false)
  | some (.failure _) => (.ok (), true)


/-- A stored row of the `books` table: the store-assigned id plus the six
data columns. SQLite columns are dynamically typed, so the columns are kept
as JS values. -/
structure Row where
  id : Int
  fields : BookObj
deriving DecidableEq, Repr

/-- The store executing `SELECT * FROM books WHERE id = ?`. -/
def dbFind (db : List Row) (id : Int) : Option Row :=
  db.find? (fun r => r.id = id)

/-- Insert a row into a list sorted by ascending id (helper for the
`ORDER BY id ASC` the list and search statements carry). -/
def insertSorted (r : Row) : List Row → List Row
  | [] => [r]
  | x :: xs => if r.id ≤ x.id then r :: x :: xs else x :: insertSorted r xs

/-- The store ordering rows by `id ASC`. -/
def sortById (db : List Row) : List Row :=
  db.foldr insertSorted []

/-- `params.get(k)` on the query string: `none` models `null`. -/
def paramsGet (params : List (String × String)) (k : String) : Option String :=
  (params.find? (fun p => p.1 = k)).map Prod.snd

/-- The store evaluating the list predicate `1=1 [AND genre = ?] [AND year = ?]`
on one row. -/
def rowMatchesList (genreF : Option String) (yearF : Option Int) (r : Row) : Bool :=
  (match genreF with
   | none => true
   | some g => r.fields.genre = Value.vStr g)
  && (match yearF with
   | none => true
   | some y => r.fields.year = Value.vNum y)

/-- Everything the GET `/api/books` branch computes: the parsed pagination
parameters, both statement texts, the bound values, and the executed
result (row page, total, `pages`). -/
structure ListOut where
  page : Int
  limit : Int
  offset : Int
  dataQuery : String
  countQuery : String
  bindings : List Value
  total : Nat
  rows : List Row
  pages : Nat
deriving DecidableEq, Repr

/-- The GET `/api/books` branch (`src/index.js` lines 249-298): parse
`page`/`limit` with defaults and the 100 cap, compute the offset, assemble
the filter predicate, derive the count statement with
`query.replace('*', 'COUNT(*) as count')` before `ORDER BY`/`LIMIT`/`OFFSET`
are appended, run both statements, and shape the pagination object with
`pages = Math.ceil(count / limit)`. -/
def listBranch (params : List (String × String)) (db : List Row) : Except JsError ListOut :=
  let page := safeParseIntD (paramsGet params "page") 1
  let limit := min (safeParseIntD (paramsGet params "limit") 10) 100
  let offset := (page - 1) * limit
  let genreRaw := paramsGet params "genre"
  let yearF := safeParseIntN (paramsGet params "year")
  if (match genreRaw with
      | some g => g ≠ "" && decide (g.length > 100)
      | none => false) then
    .error (.validation "Genre parameter too long")
  else
    let genreF : Option String :=
      match genreRaw with
      | some g => if g = "" then none else some g
      | none => none
    let q0 := "SELECT * FROM books WHERE 1=1"
    let qb1 : String × List Value :=
      match genreF with
      | some g => (q0 ++ " AND genre = ?", [Value.vStr g])
      | none => (q0, [])
    let qb2 : String × List Value :=
      match yearF with
      | some yr => (qb1.1 ++ " AND year = ?", qb1.2 ++ [Value.vNum yr])
      | none => qb1
    let countQuery := replaceFirst qb2.1 "*" "COUNT(*) as count"
    let total := (db.filter (rowMatchesList genreF yearF)).length
    let dataQuery := qb2.1 ++ " ORDER BY id ASC LIMIT ? OFFSET ?"
    let bindings := qb2.2 ++ [Value.vNum limit, Value.vNum offset]
    let rows :=
      ((sortById (db.filter (rowMatchesList genreF yearF))).drop offset.toNat).take limit.toNat
    .ok { page, limit, offset, dataQuery, countQuery, bindings, total, rows,
          pages := jsCeilDiv total limit.toNat }

/-- HTTP method of a request. -/
inductive Method where
  | get | post | put | delete | options
  | other : String → Method
deriving DecidableEq, Repr

/-- Externally visible actions the dispatcher performs, in order: the rate
limit gate, the content-type check, and store reads/writes. -/
inductive Effect where
  | rateCheck | ctCheck | storeRead | storeWrite
deriving DecidableEq, Repr

/-- The body of a shaped response: empty (204), an `{error: msg}` object, or
the success payload of the branch that produced it. The stats body is
modelled by its total-count component only (no claim concerns the genre
histogram or year range). -/
inductive RespBody where
  | empty
  | errMsg : String → RespBody
  | bookData : Row → RespBody
  | listData : List Row → Nat → Int → Int → Nat → RespBody
  | searchData : String → List Row → Nat → RespBody
  | statsData : Nat → RespBody
  | healthData
deriving DecidableEq, Repr

/-- A shaped HTTP response: status code plus body. -/
structure HResp where
  status : Nat
  body : RespBody
deriving DecidableEq, Repr

/-- An inbound request as the dispatcher sees it: method, pathname split
into segments, the `content-length` and `content-type` headers, the query
string, and the parsed JSON body (`none` models a body that fails
`request.json()`). -/
structure Request where
  method : Method
  path : List String
  contentLength : Option String := none
  contentType : Option String := none
  queryParams : List (String × String) := []
  body : Option (List (String × Value)) := none
deriving DecidableEq, Repr

/-- `validateContentType(request)` from the source: for POST/PUT the header
must be present, non-empty and contain `application/json`. -/
def validateContentType (req : Request) : Except JsError Unit :=
  if req.method = .post ∨ req.method = .put then
    match req.contentType with
    | none => .error (.validation "Content-Type must be application/json")
    | some ct =>
      if ct = "" ∨ ¬ jsIncludes ct "application/json" then
        .error (.validation "Content-Type must be application/json")
      else .ok ()
  else .ok ()

/-- The request-size gate: `contentLength && parseInt(contentLength) > 1048576`
(`null` and the empty string are falsy; a `NaN` comparison is false). -/
def sizeExceeded (cl : Option String) : Bool :=
  match cl with
  | none => false
  | some s =>
    s ≠ "" && (match jsParseInt s with
               | some n => decide (n > 1048576)
               | none => false)

/-- Read the six known fields out of a parsed JSON body object. -/
def objToBook (obj : List (String × Value)) : BookObj where
  title := jsObjGet obj "title"
  author := jsObjGet obj "author"
  year := jsObjGet obj "year"
  isbn := jsObjGet obj "isbn"
  genre := jsObjGet obj "genre"
  description := jsObjGet obj "description"

/-- Write one column of a row, as the store does when executing the SET
clause. -/
def setBookField (b : BookObj) (k : String) (v : Value) : BookObj :=
  if k = "title" then { b with title := v }
  else if k = "author" then { b with author := v }
  else if k = "year" then { b with year := v }
  else if k = "isbn" then { b with isbn := v }
  else if k = "genre" then { b with genre := v }
  else if k = "description" then { b with description := v }
  else b

/-- The store executing `UPDATE books SET col = ?, ... WHERE id = ?`: each
listed column receives its mapped bound value. -/
def applyUpdates (b : BookObj) (fields : List String) (updates : List (String × Value)) : BookObj :=
  fields.foldl (fun acc k => setBookField acc k (mapUpdateValue (jsObjGet updates k))) b

/-- The store executing the `INSERT`: a fresh row from the six bound values,
under a store-assigned id (`last_row_id`). -/
def rowFromInsert (id : Int) (vals : List Value) : Row where
  id := id
  fields := { title := vals.getD 0 .vNull, author := vals.getD 1 .vNull,
              year := vals.getD 2 .vNull, isbn := vals.getD 3 .vNull,
              genre := vals.getD 4 .vNull, description := vals.getD 5 .vNull }

/-- The single-book branch (`src/index.js` lines 344-437): parse the id
segment through `safeParseInt(…, 0)` and reject 0; fetch the row once and
raise 404 when absent; only then branch on the method (GET serve, PUT
filter/validate/update/re-select, DELETE remove, otherwise 405). -/
def singleBranch (req : Request) (seg : String) (db : List Row) (currentYear : Int) :
    Except JsError HResp × List Row × List Effect :=
  let id := safeParseIntD (some seg) 0
  if id = 0 then (.error (.validation "Invalid book ID"), db, [])
  else
    match dbFind db id with
    | none => (.error (.notFound "Book not found"), db, [.storeRead])
    | some row =>
      match req.method with
      | .get => (.ok { status := 200, body := .bookData row }, db, [.storeRead])
      | .put =>
        match req.body with
        | none => (.error jsonParseError, db, [.storeRead])
        | some updates =>
          match putCore row.fields updates id currentYear with
          | .error e => (.error e, db, [.storeRead])
          | .ok _ =>
            let newRow : Row :=
              { id := row.id, fields := applyUpdates row.fields (updateFieldsOf updates) updates }
            let db' := db.map (fun r => if r.id = id then newRow else r)
            (.ok { status := 200, body := .bookData newRow }, db',
              [.storeRead, .storeWrite, .storeRead])
      | .delete =>
        (.ok { status := 204, body := .empty }, db.filter (fun r => r.id ≠ id),
          [.storeRead, .storeWrite])
      | _ => (.ok { status := 405, body := .errMsg "Method not allowed" }, db, [.storeRead])

/-- The POST `/api/books` branch (`src/index.js` lines 301-336): parse the
body, validate in create mode, bind `insertBindings`, run the `INSERT`, then
re-select the inserted row and respond 201. -/
def postBranch (req : Request) (db : List Row) (currentYear : Int) :
    Except JsError HResp × List Row × List Effect :=
  match req.body with
  | none => (.error jsonParseError, db, [])
  | some obj =>
    let book := objToBook obj
    match validateBook book false currentYear with
    | .error e => (.error e, db, [])
    | .ok _ =>
      let newId := (db.foldl (fun m r => max m r.id) 0) + 1
      let newRow := rowFromInsert newId (insertBindings book)
      (.ok { status := 201, body := .bookData newRow }, db ++ [newRow],
        [.storeWrite, .storeRead])

/-- ASCII lower-casing, for the case-insensitive `LIKE`. -/
def lowerStr (s : String) : String := ⟨s.data.map Char.toLower⟩

/-- The store evaluating `col LIKE '%q%'` on one column value: `NULL`
never matches, numbers are coerced to their text form, matching is
case-insensitive substring containment. -/
def likeContains (v : Value) (q : String) : Bool :=
  match v with
  | .vStr s => jsIncludes (lowerStr s) (lowerStr q)
  | .vNum n => jsIncludes (lowerStr (toString n)) (lowerStr q)
  | _ => false

/-- The search predicate: the one term matched against title, author,
genre, isbn, year and description, OR-combined (source column order). -/
def searchMatches (q : String) (r : Row) : Bool :=
  likeContains r.fields.title q || likeContains r.fields.author q
    || likeContains r.fields.genre q || likeContains r.fields.isbn q
    || likeContains r.fields.year q || likeContains r.fields.description q

/-- The GET `/api/books/search` branch (`src/index.js` lines 207-244). -/
def searchBranch (req : Request) (db : List Row) :
    Except JsError HResp × List Row × List Effect :=
  match paramsGet req.queryParams "q" with
  | none => (.error (.validation "Search query `?q=` is required"), db, [])
  | some q =>
    if q = "" then (.error (.validation "Search query `?q=` is required"), db, [])
    else if q.length > 200 then
      (.error (.validation "Search query too long (max 200 characters)"), db, [])
    else
      let results := sortById (db.filter (searchMatches q))
      (.ok { status := 200, body := .searchData q results results.length }, db, [.storeRead])

/-- The GET `/api/books` collection branch dispatcher (GET list, POST
create, otherwise 405). A thrown `Genre parameter too long` happens before
either statement runs; on success the count statement and the data statement
are the two store reads. -/
def collectionBranch (req : Request) (db : List Row) (currentYear : Int) :
    Except JsError HResp × List Row × List Effect :=
  match req.method with
  | .get =>
    match listBranch req.queryParams db with
    | .error e => (.error e, db, [])
    | .ok o =>
      (.ok { status := 200, body := .listData o.rows o.total o.page o.limit o.pages }, db,
        [.storeRead, .storeRead])
  | .post => postBranch req db currentYear
  | _ => (.ok { status := 405, body := .errMsg "Method not allowed" }, db, [])

/-- The `/api/stats` branch: three statements run against the store. -/
def statsBranch (db : List Row) : Except JsError HResp × List Row × List Effect :=
  (.ok { status := 200, body := .statsData db.length }, db,
    [.storeRead, .storeRead, .storeRead])

/-- The `/api/health` branch: one `SELECT 1` probe. -/
def healthBranch (db : List Row) : Except JsError HResp × List Row × List Effect :=
  (.ok { status := 200, body := .healthData }, db, [.storeRead])

/-- Route pattern `/api/books/:id([0-9]+)`: the third segment must be one or
more digits; returns the matched segment. -/
def singleSeg : List String → Option String
  | ["api", "books", seg] =>
    if seg ≠ "" && seg.data.all Char.isDigit then some seg else none
  | _ => none

/-- The route-matching cascade inside the `try` block, in source order:
search, books collection, single book, stats, health, then the 404
fallthrough. -/
def routesRun (req : Request) (db : List Row) (currentYear : Int) :
    Except JsError HResp × List Row × List Effect :=
  if req.path = ["api", "books", "search"] then searchBranch req db
  else if req.path = ["api", "books"] then collectionBranch req db currentYear
  else
    match singleSeg req.path with
    | some seg => singleBranch req seg db currentYear
    | none =>
      if req.path = ["api", "stats"] then statsBranch db
      else if req.path = ["api", "health"] then healthBranch db
      else (.ok { status := 404, body := .errMsg "Not Found" }, db, [])

/-- Shape a caught error as the dispatcher's error response
`{error: message}` with its mapped status. -/
def errResp (e : JsError) : HResp :=
  { status := (handleError e "").1, body := .errMsg (handleError e "").2 }

/-- The `fetch` dispatcher (`src/index.js` lines 172-516): OPTIONS
short-circuits to 204; the declared size gate answers 413 before anything
else; then the `try` block runs the rate-limit gate, the content-type check
and the routed branch, and the `catch` block maps any raised error to its
response. The returned effect list records what was reached, in order. -/
def dispatch (req : Request) (limiter : Option LimiterOutcome) (db : List Row)
    (currentYear : Int) : HResp × List Row × List Effect :=
  if req.method = .options then ({ status := 204, body := .empty }, db, [])
  else if sizeExceeded req.contentLength then
    ({ status := 413, body := .errMsg "Request body too large (max 1MB)" }, db, [])
  else
    match (checkRateLimit limiter).1 with
    | .error e => (errResp e, db, [.rateCheck])
    | .ok _ =>
      match validateContentType req with
      | .error e => (errResp e, db, [.rateCheck, .ctCheck])
      | .ok _ =>
        match routesRun req db currentYear with
        | (.ok resp, db', eff) => (resp, db', .rateCheck :: .ctCheck :: eff)
        | (.error e, db', eff) => (errResp e, db', .rateCheck :: .ctCheck :: eff)

/-- A candidate record whose only optional field is the given isbn, with
valid title and author. -/
def mkIsbnBook (s : String) : BookObj :=
  { title := .vStr "T", author := .vStr "A", isbn := .vStr s }

/-- The concrete record exercising the C3 divergences: the provided year `0`
and the whitespace-only genre `" "` both pass create-mode validation. -/
def c3Book : BookObj :=
  { title := .vStr "T", author := .vStr "A", year := .vNum 0, genre := .vStr " " }

/-- A concrete record with a truthy year and a padded genre, for the C3
witness. -/
def c3WitnessBook : BookObj :=
  { title := .vStr "T", author := .vStr "A", year := .vNum 1960, genre := .vStr " g " }

/-- The list output for a parameterless request against an empty store, used
as the C1 witness. -/
def c1WitnessOut : ListOut :=
  { page := 1, limit := 10, offset := 0,
    dataQuery := "SELECT * FROM books WHERE 1=1 ORDER BY id ASC LIMIT ? OFFSET ?",
    countQuery := "SELECT COUNT(*) as count FROM books WHERE 1=1",
    bindings := [.vNum 10, .vNum 0], total := 0, rows := [], pages := 0 }

/-- A stored row as `SELECT *` returns it: every column present, the unset
optional columns explicit SQL `NULL`s. -/
def c2Row : Row :=
  { id := 7,
    fields := { title := .vStr "T", author := .vStr "A", year := .vNull,
                isbn := .vNull, genre := .vNull, description := .vNull } }

/-- A complete `PUT /api/books/7` request whose body is the JSON text
`{"description": " "}` — a JSON object with one member whose value is the
one-character string of a space, which `request.json()` accepts. -/
def c2Req : Request :=
  { method := .put, path := ["api", "books", "7"],
    contentType := some "application/json",
    body := some [("description", .vStr " ")] }

/-- The row after the counterexample update: the space survives into the
store, untrimmed and not null. -/
def c2RowAfter : Row :=
  { id := 7,
    fields := { title := .vStr "T", author := .vStr "A", year := .vNull,
                isbn := .vNull, genre := .vNull, description := .vStr " " } }

example : jsParseInt "2000000" = some 2000000 := by decide
example : jsParseInt "12abc" = some 12 := by decide
example : jsParseInt "abc" = none := by decide
example : jsParseInt "  -42" = some (-42) := by decide
example : jsParseInt "0x10" = some 16 := by decide
example : jsParseInt "0" = some 0 := by decide
example : safeParseIntD (some "0") 1 = 1 := by decide
example : safeParseIntD none 10 = 10 := by decide
example : replaceFirst "SELECT * FROM books WHERE 1=1" "*" "COUNT(*) as count"
    = "SELECT COUNT(*) as count FROM books WHERE 1=1" := by decide
example : jsIncludes "Database query timeout" "timeout" = true := by decide
example : jsCeilDiv 42 10 = 5 := by decide

example : validateBook { title := .vStr "T", author := .vStr "A" } false 2025 = .ok () := by decide
example : validateBook {} false 2025
    = .error (.validation "Missing required fields: title, author") := by decide
example : validateBook { title := .vStr "T" } false 2025
    = .error (.validation "Missing required fields: author") := by decide
example : validateBook { title := .vStr "T", author := .vStr "A", year := .vNum 0 } false 2025
    = .ok () := by decide
example : validateBook { title := .vStr "T", author := .vStr "A", year := .vNum 2036 } false 2025
    = .error (.validation "Year must be a valid number between 0 and 2035") := by decide

example : putCore { title := .vStr "Old", author := .vStr "A" }
    [("title", .vStr "New"), ("hacker", .vStr "evil")] 5 2025
    = .ok ("title = ?", [.vStr "New", .vNum 5]) := by decide
example : putCore { title := .vStr "Old", author := .vStr "A" }
    [("hacker", .vStr "evil")] 5 2025
    = .error (.validation "No valid fields to update") := by decide
example : mapUpdateValue (.vStr " x ") = .vStr "x" := by decide
example : mapUpdateValue (.vStr "") = .vNull := by decide
example : mapUpdateValue (.vStr " ") = .vStr " " := by decide
example :
    insertBindings
      { title := .vStr "T", author := .vStr "A", year := .vNum 0, genre := .vStr " " }
    = [.vStr "T", .vStr "A", .vNull, .vNull, .vStr "", .vNull] := by decide

example : dispatch { method := .options, path := [] } none [] 2025
    = ({ status := 204, body := .empty }, [], []) := by decide
example : dispatch { method := .get, path := ["api", "books", "3"] } none
    [{ id := 3, fields := { title := .vStr "T", author := .vStr "A" } }] 2025
    = ({ status := 200,
         body := .bookData { id := 3, fields := { title := .vStr "T", author := .vStr "A" } } },
       [{ id := 3, fields := { title := .vStr "T", author := .vStr "A" } }],
       [.rateCheck, .ctCheck, .storeRead]) := by decide
example : dispatch { method := .delete, path := ["api", "books", "9"] } none [] 2025
    = ({ status := 404, body := .errMsg "Book not found" }, [], [.rateCheck, .ctCheck, .storeRead]) := by decide
example : dispatch { method := .get, path := ["api", "nope"] } none [] 2025
    = ({ status := 404, body := .errMsg "Not Found" }, [], [.rateCheck, .ctCheck]) := by decide

/-- C7: a non-OPTIONS request whose declared content-length parses to more
than 1 MiB (1048576 bytes) is answered 413 with the store untouched and an
empty effect trace — the rate-limit gate, the content-type check, field
validation and every store operation are never reached, whatever the limiter
and store would have done. -/
theorem size_gate_rejects_before_any_work
    (req : Request) (limiter : Option LimiterOutcome) (db : List Row) (y : Int)
    (s : String) (n : Int)
    (hopt : req.method ≠ .options)
    (hcl : req.contentLength = some s) (hs : s ≠ "")
    (hn : jsParseInt s = some n) (hgt : 1048576 < n) :
    dispatch req limiter db y
      = ({ status := 413, body := .errMsg "Request body too large (max 1MB)" }, db, []) := by
  have hsz : sizeExceeded req.contentLength = true := by
    rw [hcl]
    simp [sizeExceeded, hs, hn, hgt]
  simp [dispatch, hopt, hsz]

/-- C7 witness: a declared content-length of 2,000,000 on a POST to the
collection route is rejected with 413 and an empty effect trace. -/
theorem size_gate_rejects_before_any_work_witness :
    dispatch { method := .post, path := ["api", "books"], contentLength := some "2000000" }
      (some (.success false)) [] 2025
      = ({ status := 413, body := .errMsg "Request body too large (max 1MB)" }, [], []) :=
  size_gate_rejects_before_any_work _ _ _ _ "2000000" 2000000
    (by decide) rfl (by decide) (by decide) (by decide)

/-- C8: the rate-limit gate passes (with nothing logged) when no limiter is
configured; a configured limiter reporting `success=false` makes the gate
fail with the `RateLimitError`, which the dispatcher maps to 429; a limiter
that itself raises an infrastructure error is logged and the gate passes. -/
theorem rate_gate_behavior :
    checkRateLimit none = (.ok (), false) ∧
    checkRateLimit (some (.success true)) = (.ok (), false) ∧
    checkRateLimit (some (.success false))
      = (.error (.rateLimit "Rate limit exceeded. Please try again later."), false) ∧
    handleError (.rateLimit "Rate limit exceeded. Please try again later.") ""
      = (429, "Rate limit exceeded. Please try again later.") ∧
    (∀ m : String, checkRateLimit (some (.failure m)) = (.ok (), true)) := by
  refine ⟨rfl, rfl, rfl, rfl, fun m => rfl⟩

/-- C9: the catch block maps every failure to exactly one response:
`ValidationError` to 400, `NotFoundError` to 404, `RateLimitError` to 429,
each carrying its own message; the store-timeout error to 504 with a generic
message (as does any generic error whose message mentions `timeout`); any
other generic error outside the taxonomy (no `timeout`, no `JSON` in its
message) to 500 with a generic message; and the response never depends on
the error's stack trace. -/
theorem error_mapping (m st st' : String) (e : JsError) :
    handleError (.validation m) st = (400, m) ∧
    handleError (.notFound m) st = (404, m) ∧
    handleError (.rateLimit m) st = (429, m) ∧
    handleError dbTimeoutError st = (504, "Request timeout") ∧
    (jsIncludes m "timeout" = true → handleError (.generic m) st = (504, "Request timeout")) ∧
    (jsIncludes m "timeout" = false → jsIncludes m "JSON" = false →
      handleError (.generic m) st = (500, "An unexpected error occurred")) ∧
    handleError e st = handleError e st' := by
  have htm : jsIncludes "Database query timeout" "timeout" = true := by decide
  refine ⟨rfl, rfl, rfl, by simp [handleError, dbTimeoutError, htm], ?_, ?_, rfl⟩
  · intro h
    simp [handleError, h]
  · intro h1 h2
    simp [handleError, h1, h2]

/-- C9 witness: a generic error mentioning neither `timeout` nor `JSON`
becomes a 500 with the generic message, whatever stack it carried. -/
theorem error_mapping_witness :
    handleError (.generic "boom") "some stack trace" = (500, "An unexpected error occurred") :=
  (error_mapping "boom" "some stack trace" "other" (.generic "boom")).2.2.2.2.2.1
    (by decide) (by decide)

/-- C10: on the single-record route, an id segment whose `safeParseInt`
result is the 0 default (for a digits-only segment: the segment is all
zeros) raises `ValidationError` with message `Invalid book ID` — mapped to
400 — before any store lookup: the effect trace stops at the gates and the
store is untouched, unlike the 404 path taken for other nonexistent ids. -/
theorem zero_id_validation_before_lookup
    (m : Method) (seg : String) (cl ct : Option String) (qp : List (String × String))
    (bd : Option (List (String × Value)))
    (limiter : Option LimiterOutcome) (db : List Row) (y : Int)
    (hopt : m ≠ .options)
    (hseg : seg ≠ "" ∧ seg.data.all Char.isDigit = true)
    (hid : safeParseIntD (some seg) 0 = 0)
    (hsize : sizeExceeded cl = false)
    (hrl : (checkRateLimit limiter).1 = .ok ())
    (hct : validateContentType
      { method := m, path := ["api", "books", seg], contentLength := cl,
        contentType := ct, queryParams := qp, body := bd } = .ok ()) :
    dispatch
      { method := m, path := ["api", "books", seg], contentLength := cl,
        contentType := ct, queryParams := qp, body := bd } limiter db y
      = ({ status := 400, body := .errMsg "Invalid book ID" }, db, [.rateCheck, .ctCheck]) := by
  have hns : seg ≠ "search" := by
    intro h
    rw [h] at hseg
    simp at hseg
  simp [dispatch, hopt, hsize, hrl, hct, routesRun, hns, singleSeg, hseg.1, hseg.2,
    singleBranch, hid, errResp, handleError]

/-- C10 witness: `GET /api/books/0` yields the 400 `Invalid book ID`
response with no store read. -/
theorem zero_id_validation_before_lookup_witness :
    dispatch { method := .get, path := ["api", "books", "0"] } none
      [{ id := 1, fields := { title := .vStr "T", author := .vStr "A" } }] 2025
      = ({ status := 400, body := .errMsg "Invalid book ID" },
         [{ id := 1, fields := { title := .vStr "T", author := .vStr "A" } }],
         [.rateCheck, .ctCheck]) :=
  zero_id_validation_before_lookup .get "0" none none [] none none _ 2025
    (by decide) (by decide) (by decide) rfl rfl rfl

/-- C6: on the single-record route with a positive id that resolves to no
stored row, the row is fetched exactly once (a single store read) and the
404 `Book not found` response is produced before the method branch runs, so
GET, PUT and DELETE all receive the identical response, the store is
unchanged, and no method-specific work (no write, no body handling) is
performed. -/
theorem single_nonexistent_uniform_404
    (m : Method) (seg : String) (cl ct : Option String) (qp : List (String × String))
    (bd : Option (List (String × Value)))
    (limiter : Option LimiterOutcome) (db : List Row) (y : Int) (n : Int)
    (hm : m = .get ∨ m = .put ∨ m = .delete)
    (hseg : seg ≠ "" ∧ seg.data.all Char.isDigit = true)
    (hid : safeParseIntD (some seg) 0 = n) (hn : n ≠ 0)
    (hfind : dbFind db n = none)
    (hsize : sizeExceeded cl = false)
    (hrl : (checkRateLimit limiter).1 = .ok ())
    (hct : validateContentType
      { method := m, path := ["api", "books", seg], contentLength := cl,
        contentType := ct, queryParams := qp, body := bd } = .ok ()) :
    dispatch
      { method := m, path := ["api", "books", seg], contentLength := cl,
        contentType := ct, queryParams := qp, body := bd } limiter db y
      = ({ status := 404, body := .errMsg "Book not found" }, db,
         [.rateCheck, .ctCheck, .storeRead]) := by
  have hopt : m ≠ .options := by
    rcases hm with rfl | rfl | rfl <;> simp
  have hns : seg ≠ "search" := by
    intro h
    rw [h] at hseg
    simp at hseg
  simp [dispatch, hopt, hsize, hrl, hct, routesRun, hns, singleSeg, hseg.1, hseg.2,
    singleBranch, hid, hn, hfind, errResp, handleError]

/-- C6 witness: `DELETE /api/books/5` on a store holding only id 3 yields
the 404 `Book not found` response after a single read. -/
theorem single_nonexistent_uniform_404_witness :
    dispatch { method := .delete, path := ["api", "books", "5"] } none
      [{ id := 3, fields := { title := .vStr "T", author := .vStr "A" } }] 2025
      = ({ status := 404, body := .errMsg "Book not found" },
         [{ id := 3, fields := { title := .vStr "T", author := .vStr "A" } }],
         [.rateCheck, .ctCheck, .storeRead]) :=
  single_nonexistent_uniform_404 .delete "5" none none [] none none _ 2025 5
    (by simp) (by decide) (by decide) (by decide) rfl rfl rfl rfl


/-- C4: for a candidate record with a present, non-empty isbn string (all
other checks passing), create-mode validation succeeds exactly when the
value matches the anchored regex alternation digits-10, digits-13, or 13-17
characters of digits and hyphens, and otherwise fails with the
`ValidationError` `Invalid ISBN format`; in particular `"0451524935"` and
`"9780451524935"` pass while `"abc"` and the 20-digit
`"12345678901234567890"` fail. -/
theorem isbn_validation_characterization (s : String) (y : Int) (h : s ≠ "") :
    ((validateBook (mkIsbnBook s) false y = .ok ()) ↔ isbnRegexMatch s = true) ∧
    ((isbnRegexMatch s = false) →
      validateBook (mkIsbnBook s) false y = .error (.validation "Invalid ISBN format")) ∧
    validateBook (mkIsbnBook "0451524935") false y = .ok () ∧
    validateBook (mkIsbnBook "9780451524935") false y = .ok () ∧
    validateBook (mkIsbnBook "abc") false y = .error (.validation "Invalid ISBN format") ∧
    validateBook (mkIsbnBook "12345678901234567890") false y
      = .error (.validation "Invalid ISBN format") := by
  have hval : ∀ t : String, t ≠ "" →
      validateBook (mkIsbnBook t) false y
        = if isbnRegexMatch t then .ok () else .error (.validation "Invalid ISBN format") := by
    intro t ht
    have hisbn : checkIsbn (.vStr t)
        = if isbnRegexMatch t then .ok () else .error (.validation "Invalid ISBN format") := by
      simp [checkIsbn, truthy, ht]
    have h1 : checkTitle (.vStr "T") = .ok () := by decide
    have h2 : checkAuthor (.vStr "A") = .ok () := by decide
    have h3 : checkYear .vUndefined y = .ok () := by simp [checkYear]
    have h4 : checkDescription .vUndefined = .ok () := by decide
    have h5 : checkGenre .vUndefined = .ok () := by decide
    have hreq : requiredMissing (mkIsbnBook t) = [] := rfl
    have q1 : (mkIsbnBook t).title = .vStr "T" := rfl
    have q2 : (mkIsbnBook t).author = .vStr "A" := rfl
    have q3 : (mkIsbnBook t).year = .vUndefined := rfl
    have q4 : (mkIsbnBook t).isbn = .vStr t := rfl
    have q5 : (mkIsbnBook t).description = .vUndefined := rfl
    have q6 : (mkIsbnBook t).genre = .vUndefined := rfl
    unfold validateBook
    rw [hreq, q1, q2, q3, q4, q5, q6, h1, h2, h3, hisbn]
    simp only [List.isEmpty_nil, Bool.not_true, Bool.and_false, Bool.false_eq_true,
      if_false, Except.bind]
    split <;> simp_all
  refine ⟨?_, ?_, ?_, ?_, ?_, ?_⟩
  · rw [hval s h]
    split <;> simp_all
  · intro hf
    rw [hval s h, hf]
    simp
  · rw [hval "0451524935" (by decide)]
    decide
  · rw [hval "9780451524935" (by decide)]
    decide
  · rw [hval "abc" (by decide)]
    decide
  · rw [hval "12345678901234567890" (by decide)]
    decide

/-- C4 witness: the characterization applied at the concrete isbn
`"0451524935"`. -/
theorem isbn_validation_characterization_witness :
    (validateBook (mkIsbnBook "0451524935") false 2025 = .ok ())
      ↔ isbnRegexMatch "0451524935" = true :=
  (isbn_validation_characterization "0451524935" 2025 (by decide)).1

/-- C2 counterexample, run end to end: dispatching the complete request
`PUT /api/books/7` with content-type `application/json` and the legal JSON
body `{"description": " "}` against a store holding row 7 (all columns
present, unset ones `NULL`, as `SELECT *` returns them) succeeds with 200 —
yet the builder binds the payload value `" "`, which is non-empty text, as
`" "` itself (the update values are `[" ", 7]`), neither its trimmed form
(the empty string) nor null, and the stored row afterwards carries the
space literally. So the claimed mapping fails on whitespace-only strings. -/
theorem update_trim_counterexample :
    putCore c2Row.fields [("description", .vStr " ")] 7 2025
      = .ok ("description = ?", [.vStr " ", .vNum 7]) ∧
    (" " : String) ≠ "" ∧
    Value.vStr " " ≠ .vStr (jsTrim " ") ∧
    Value.vStr " " ≠ .vNull ∧
    dispatch c2Req none [c2Row] 2025
      = ({ status := 200, body := .bookData c2RowAfter }, [c2RowAfter],
         [.rateCheck, .ctCheck, .storeRead, .storeWrite, .storeRead]) := by decide

/-- C2 (amended): in the PUT value mapping, a string non-blank after
trimming is bound trimmed; the exact empty string is bound as null; a
non-empty string that is blank after trimming is bound unchanged (neither
trimmed nor null); every non-string value is bound unchanged; and the row
identifier is always the final bound parameter. -/
theorem update_values_mapping
    (fields : List String) (updates : List (String × Value)) (id : Int) :
    (updateValues fields updates id).getLast? = some (.vNum id) ∧
    (∀ s : String, 0 < (jsTrim s).length → mapUpdateValue (.vStr s) = .vStr (jsTrim s)) ∧
    mapUpdateValue (.vStr "") = .vNull ∧
    (∀ s : String, s ≠ "" → (jsTrim s).length = 0 → mapUpdateValue (.vStr s) = .vStr s) ∧
    (∀ v : Value, (∀ s : String, v ≠ .vStr s) → mapUpdateValue v = v) := by
  refine ⟨?_, ?_, by decide, ?_, ?_⟩
  · rw [updateValues, List.getLast?_concat]
  · intro s hs
    simp [mapUpdateValue, hs]
  · intro s hne hblank
    simp [mapUpdateValue, hblank, hne]
  · intro v hv
    cases v with
    | vStr s => exact absurd rfl (hv s)
    | _ => rfl

/-- C2 witness: the amended mapping applied to a concrete payload — the id
is the last bound value and `" x "` is bound as its trimmed form `"x"`. -/
theorem update_values_mapping_witness :
    (updateValues ["title"] [("title", .vStr " x ")] 3).getLast? = some (.vNum 3) ∧
    mapUpdateValue (.vStr " x ") = .vStr (jsTrim " x ") :=
  ⟨(update_values_mapping ["title"] [("title", .vStr " x ")] 3).1,
   (update_values_mapping ["title"] [("title", .vStr " x ")] 3).2.1 " x " (by decide)⟩


/-- C3 counterexample: a record with year `0` and genre `" "` passes
create-mode validation, yet the INSERT binds year as null (the `||` treats
the provided 0 as absent) and genre as the empty string (trimmed, not null),
both contradicting the claimed binding. -/
theorem insert_bindings_counterexample :
    validateBook c3Book false 2025 = .ok () ∧
    insertBindings c3Book = [.vStr "T", .vStr "A", .vNull, .vNull, .vStr "", .vNull] ∧
    specC3InsertBindings c3Book = [.vStr "T", .vStr "A", .vNum 0, .vNull, .vNull, .vNull] ∧
    insertBindings c3Book ≠ specC3InsertBindings c3Book := by decide

/-- A truthy value passed through `v || null` is never the null marker. -/
theorem ite_truthy_self_eq_null (v : Value) :
    ((if truthy v then v else Value.vNull) = Value.vNull) ↔ truthy v = false := by
  cases v with
  | vNull => simp [truthy]
  | vUndefined => simp [truthy]
  | vStr s => by_cases hs : s = "" <;> simp [truthy, hs]
  | vNum n => by_cases hn : n = 0 <;> simp [truthy, hn]
  | vBool b => cases b <;> simp [truthy]

/-- A truthy value passed through `v ? v.trim() : null` is never the null
marker. -/
theorem ite_truthy_trim_eq_null (v : Value) :
    ((if truthy v then jsTrimV v else Value.vNull) = Value.vNull) ↔ truthy v = false := by
  cases v with
  | vNull => simp [truthy]
  | vUndefined => simp [truthy]
  | vStr s => by_cases hs : s = "" <;> simp [truthy, hs, jsTrimV]
  | vNum n => by_cases hn : n = 0 <;> simp [truthy, hn, jsTrimV]
  | vBool b => cases b <;> simp [truthy, jsTrimV]

/-- C3 (amended): the INSERT binds the six columns in the fixed order
title, author, year, isbn, genre, description; title and author are bound
trimmed; each optional field is bound as null exactly when its provided
value is falsy (absent, null, empty string, or the number 0); a truthy year
or isbn is bound exactly as provided (isbn is not trimmed), while a truthy
genre or description is bound trimmed — so a whitespace-only genre or
description is bound as the empty string, not as null. -/
theorem insert_bindings_characterization (book : BookObj) :
    (insertBindings book).length = 6 ∧
    (insertBindings book).getD 0 .vNull = jsTrimV book.title ∧
    (insertBindings book).getD 1 .vNull = jsTrimV book.author ∧
    ((insertBindings book).getD 2 .vNull = .vNull ↔ truthy book.year = false) ∧
    (truthy book.year = true → (insertBindings book).getD 2 .vNull = book.year) ∧
    ((insertBindings book).getD 3 .vNull = .vNull ↔ truthy book.isbn = false) ∧
    (truthy book.isbn = true → (insertBindings book).getD 3 .vNull = book.isbn) ∧
    ((insertBindings book).getD 4 .vNull = .vNull ↔ truthy book.genre = false) ∧
    (truthy book.genre = true → (insertBindings book).getD 4 .vNull = jsTrimV book.genre) ∧
    ((insertBindings book).getD 5 .vNull = .vNull ↔ truthy book.description = false) ∧
    (truthy book.description = true →
      (insertBindings book).getD 5 .vNull = jsTrimV book.description) := by
  have e2 : (insertBindings book).getD 2 .vNull
      = if truthy book.year then book.year else .vNull := rfl
  have e3 : (insertBindings book).getD 3 .vNull
      = if truthy book.isbn then book.isbn else .vNull := rfl
  have e4 : (insertBindings book).getD 4 .vNull
      = if truthy book.genre then jsTrimV book.genre else .vNull := rfl
  have e5 : (insertBindings book).getD 5 .vNull
      = if truthy book.description then jsTrimV book.description else .vNull := rfl
  refine ⟨rfl, rfl, rfl, ?_, ?_, ?_, ?_, ?_, ?_, ?_, ?_⟩
  · rw [e2]
    exact ite_truthy_self_eq_null book.year
  · intro h
    rw [e2]
    simp [h]
  · rw [e3]
    exact ite_truthy_self_eq_null book.isbn
  · intro h
    rw [e3]
    simp [h]
  · rw [e4]
    exact ite_truthy_trim_eq_null book.genre
  · intro h
    rw [e4]
    simp [h]
  · rw [e5]
    exact ite_truthy_trim_eq_null book.description
  · intro h
    rw [e5]
    simp [h]


/-- C3 witness: the characterization applied to a concrete record — the
truthy year 1960 is bound as provided, and the truthy genre `" g "` is
bound as its trimmed form. -/
theorem insert_bindings_characterization_witness :
    (insertBindings c3WitnessBook).getD 2 .vNull = Value.vNum 1960 ∧
    (insertBindings c3WitnessBook).getD 4 .vNull = Value.vStr "g" :=
  ⟨(insert_bindings_characterization c3WitnessBook).2.2.2.2.1 (by decide),
   (insert_bindings_characterization c3WitnessBook).2.2.2.2.2.2.2.2.1 (by decide)⟩

/-- C5: unknown payload keys are silently dropped — the filtered field list
contains exactly the payload keys on the allow-list, in the caller's key
order (a sublist of the payload keys) — the PUT builder fails with the
`ValidationError` `No valid fields to update` (status 400) exactly when the
filter leaves nothing, and a payload mixing an allowed and an unknown key
succeeds with the unknown key absent from the SET clause and bindings. -/
theorem update_allowlist_filter
    (updates : List (String × Value)) (book : BookObj) (id y : Int) :
    (∀ k : String, k ∈ updateFieldsOf updates
      ↔ (k ∈ updates.map Prod.fst ∧ k ∈ ALLOWED_UPDATE_FIELDS)) ∧
    (updateFieldsOf updates).Sublist (updates.map Prod.fst) ∧
    (updateFieldsOf updates = [] →
      putCore book updates id y = .error (.validation "No valid fields to update")) ∧
    handleError (.validation "No valid fields to update") ""
      = (400, "No valid fields to update") ∧
    putCore { title := .vStr "Old", author := .vStr "A" }
      [("title", .vStr "New"), ("hacker", .vStr "evil"), ("year", .vNum 1984)] 5 2025
      = .ok ("title = ?, year = ?", [.vStr "New", .vNum 1984, .vNum 5]) := by
  refine ⟨?_, ?_, ?_, rfl, by decide⟩
  · intro k
    simp [updateFieldsOf, List.mem_filter]
  · exact List.filter_sublist _
  · intro h
    simp [putCore, h]

/-- C5 witness: a payload containing only the disallowed key `"x"` is
rejected with the `No valid fields to update` validation error. -/
theorem update_allowlist_filter_witness :
    putCore {} [("x", Value.vNull)] 1 2025
      = .error (.validation "No valid fields to update") :=
  (update_allowlist_filter [("x", Value.vNull)] {} 1 2025).2.2.1 (by decide)

/-- `safeParseInt` with a positive default always produces a positive
number. -/
theorem safeParseIntD_pos (v : Option String) (d : Int) (hd : 0 < d) :
    0 < safeParseIntD v d := by
  rcases v with _ | s
  · simpa [safeParseIntD] using hd
  · rcases hp : jsParseInt s with _ | n
    · simp [safeParseIntD, hp, hd]
    · by_cases hn : n > 0
      · simp [safeParseIntD, hp, hn]
      · simp [safeParseIntD, hp, hn, hd]

/-- `safeParseInt` falls back to its default when the parse is `NaN` or not
positive. -/
theorem safeParseIntD_default (s : String) (d : Int)
    (hs : ∀ n, jsParseInt s = some n → n ≤ 0) : safeParseIntD (some s) d = d := by
  rcases hp : jsParseInt s with _ | n
  · simp [safeParseIntD, hp]
  · have hn := hs n hp
    simp [safeParseIntD, hp, show ¬ (n > 0) by omega]

/-- `safeParseInt` keeps a positive parse result. -/
theorem safeParseIntD_of_pos (s : String) (d n : Int)
    (hn : jsParseInt s = some n) (h : 0 < n) : safeParseIntD (some s) d = n := by
  simp [safeParseIntD, hn, h]

/-- `(c + l - 1) / l` is the ceiling of `c / l`: it covers `c` and is the
least multiple count doing so. -/
theorem jsCeilDiv_spec (c l : Nat) (hl : 1 ≤ l) :
    c ≤ jsCeilDiv c l * l ∧ (0 < c → (jsCeilDiv c l - 1) * l < c) := by
  unfold jsCeilDiv
  set q := (c + l - 1) / l with hq
  have hub : q * l ≤ c + l - 1 := Nat.div_mul_le_self _ _
  have hlb : c + l - 1 < q * l + l := by
    rw [hq]
    exact Nat.lt_div_mul_add (by omega)
  constructor
  · generalize q * l = X at hub hlb ⊢
    omega
  · intro hc
    rcases Nat.eq_zero_or_pos q with hq0 | hq1
    · rw [hq0]
      simpa using hc
    · have hY : (q - 1) * l + l = q * l := by
        have hsucc : q - 1 + 1 = q := by omega
        calc (q - 1) * l + l = (q - 1 + 1) * l := by ring
        _ = q * l := by rw [hsucc]
      generalize hX : q * l = X at hub hY
      generalize hZ : (q - 1) * l = Z at hY ⊢
      omega

/-- C1: whenever the GET `/api/books` branch answers, `page` defaults to 1
and `limit` to 10 when the parameter is absent or does not parse to a
positive number, a positive `limit` is capped at 100, the offset is
`(page-1)*limit`, the data statement is the count statement's predicate
(same genre/year filter, no limit/offset) plus `ORDER BY id ASC LIMIT ?
OFFSET ?` with the limit and offset appended to the filter bindings, and
the `pages` field is the ceiling of `total/limit` — so `total = 42` with
`limit = 10` gives `pages = 5`. -/
theorem list_pagination_query_correct
    (params : List (String × String)) (db : List Row) (o : ListOut)
    (h : listBranch params db = .ok o) :
    (1 ≤ o.limit ∧ o.limit ≤ 100) ∧
    (paramsGet params "page" = none → o.page = 1) ∧
    (∀ s : String, paramsGet params "page" = some s →
      (∀ n, jsParseInt s = some n → n ≤ 0) → o.page = 1) ∧
    (∀ (s : String) (n : Int), paramsGet params "page" = some s →
      jsParseInt s = some n → 0 < n → o.page = n) ∧
    (paramsGet params "limit" = none → o.limit = 10) ∧
    (∀ s : String, paramsGet params "limit" = some s →
      (∀ n, jsParseInt s = some n → n ≤ 0) → o.limit = 10) ∧
    (∀ (s : String) (n : Int), paramsGet params "limit" = some s →
      jsParseInt s = some n → 0 < n → o.limit = min n 100) ∧
    o.offset = (o.page - 1) * o.limit ∧
    (∃ pred pb, o.dataQuery
        = "SELECT * FROM books WHERE 1=1" ++ pred ++ " ORDER BY id ASC LIMIT ? OFFSET ?"
      ∧ o.countQuery = "SELECT COUNT(*) as count FROM books WHERE 1=1" ++ pred
      ∧ o.bindings = pb ++ [Value.vNum o.limit, Value.vNum o.offset]) ∧
    o.pages = jsCeilDiv o.total o.limit.toNat ∧
    o.total ≤ o.pages * o.limit.toNat ∧
    (0 < o.total → (o.pages - 1) * o.limit.toNat < o.total) ∧
    (o.total = 42 → o.limit = 10 → o.pages = 5) := by
  have hshape : o.page = safeParseIntD (paramsGet params "page") 1
      ∧ o.limit = min (safeParseIntD (paramsGet params "limit") 10) 100
      ∧ o.offset = (o.page - 1) * o.limit
      ∧ o.pages = jsCeilDiv o.total o.limit.toNat
      ∧ (∃ pred pb, o.dataQuery
          = "SELECT * FROM books WHERE 1=1" ++ pred ++ " ORDER BY id ASC LIMIT ? OFFSET ?"
        ∧ o.countQuery = "SELECT COUNT(*) as count FROM books WHERE 1=1" ++ pred
        ∧ o.bindings = pb ++ [Value.vNum o.limit, Value.vNum o.offset]) := by
    simp only [listBranch] at h
    rcases hg : paramsGet params "genre" with _ | g <;> rw [hg] at h
    · rcases hy : safeParseIntN (paramsGet params "year") with _ | yr <;>
        rw [hy] at h <;> simp only [reduceCtorEq, reduceIte] at h <;>
        obtain rfl := (Except.ok.injEq _ _).mp h.symm
      · exact ⟨rfl, rfl, rfl, rfl, "", [], rfl, rfl, rfl⟩
      · exact ⟨rfl, rfl, rfl, rfl, " AND year = ?", [.vNum yr], rfl, rfl, rfl⟩
    · by_cases hgl : (g ≠ "" && decide (g.length > 100)) = true
      · simp only [hgl, if_true] at h
        exact absurd h (by simp)
      · simp only [hgl] at h
        by_cases hge : g = ""
        · rcases hy : safeParseIntN (paramsGet params "year") with _ | yr <;>
            rw [hy] at h <;> simp only [hge, reduceCtorEq, reduceIte, if_true] at h <;>
            obtain rfl := (Except.ok.injEq _ _).mp h.symm
          · exact ⟨rfl, rfl, rfl, rfl, "", [], rfl, rfl, rfl⟩
          · exact ⟨rfl, rfl, rfl, rfl, " AND year = ?", [.vNum yr], rfl, rfl, rfl⟩
        · rcases hy : safeParseIntN (paramsGet params "year") with _ | yr <;>
            rw [hy] at h <;> simp only [hge, reduceCtorEq, reduceIte, if_false] at h <;>
            obtain rfl := (Except.ok.injEq _ _).mp h.symm
          · exact ⟨rfl, rfl, rfl, rfl, " AND genre = ?", [.vStr g], rfl, rfl, rfl⟩
          · exact ⟨rfl, rfl, rfl, rfl, " AND genre = ? AND year = ?", [.vStr g, .vNum yr],
              rfl, rfl, rfl⟩
  obtain ⟨hpage, hlimit, hoffset, hpages, hquery⟩ := hshape
  have hlim1 : 1 ≤ o.limit := by
    rw [hlimit]
    exact le_min (safeParseIntD_pos _ 10 (by omega)) (by omega)
  have hlim100 : o.limit ≤ 100 := by
    rw [hlimit]
    exact min_le_right _ _
  have hlimNat : 1 ≤ o.limit.toNat := by omega
  have hceil := jsCeilDiv_spec o.total o.limit.toNat hlimNat
  refine ⟨⟨hlim1, hlim100⟩, ?_, ?_, ?_, ?_, ?_, ?_, hoffset, hquery, hpages, ?_, ?_, ?_⟩
  · intro hp
    rw [hpage, hp]
    rfl
  · intro s hp hs
    rw [hpage, hp, safeParseIntD_default s 1 hs]
  · intro s n hp hn hpos
    rw [hpage, hp, safeParseIntD_of_pos s 1 n hn hpos]
  · intro hp
    rw [hlimit, hp]
    rfl
  · intro s hp hs
    rw [hlimit, hp, safeParseIntD_default s 10 hs]
    rfl
  · intro s n hp hn hpos
    rw [hlimit, hp, safeParseIntD_of_pos s 10 n hn hpos]
  · rw [hpages]
    exact hceil.1
  · rw [hpages]
    exact hceil.2
  · intro ht hl
    rw [hpages, ht, hl]
    decide


/-- C1 witness: the theorem applied to the concrete parameterless request —
the defaults hold and the offset arithmetic checks out. -/
theorem list_pagination_query_correct_witness :
    (1 ≤ c1WitnessOut.limit ∧ c1WitnessOut.limit ≤ 100) ∧
    c1WitnessOut.offset = (c1WitnessOut.page - 1) * c1WitnessOut.limit :=
  ⟨(list_pagination_query_correct [] [] c1WitnessOut (by decide)).1,
   (list_pagination_query_correct [] [] c1WitnessOut (by decide)).2.2.2.2.2.2.2.1⟩
